import Mathlib

/-!
Verification of the resume-builder repository (src/gemini_optimizer.py and
src/resume_builder.py) against its natural-language specification.

The Python code is shallowly embedded: pure functions become Lean functions
over `String` / `List` / `ℚ`; the two third-party black boxes (the
google-generativeai client and the reportlab drawing primitives) enter as
explicit parameters (an `Except` outcome for the model call, a height
oracle for flowable measurement), exactly as the spec's §6 treats them as
external interfaces.  Python `float` arithmetic is modelled with `ℚ`
(the layout computations involved use only exactly-representable values).
-/

/-! ## Python string primitives

Helpers mirroring the Python `str` methods the sources use.  They operate
on `List Char` with structural recursion so that every definition
evaluates inside the kernel.  `Char.isWhitespace` covers the ASCII
whitespace that appears in this program's data (space, tab, CR, LF).
-/

/-- Python `str.strip()` on a character list. -/
def pyStripList (l : List Char) : List Char :=
  ((l.dropWhile Char.isWhitespace).reverse.dropWhile Char.isWhitespace).reverse

/-- Python `str.strip()`. -/
def pyStrip (s : String) : String :=
  ⟨pyStripList s.toList⟩

/-- Split a character list at every occurrence of `c` (Python `str.split(c)`):
the separator is consumed and empty pieces are kept. -/
def splitCharAux (c : Char) : List Char → List Char → List (List Char)
  | [], acc => [acc.reverse]
  | x :: xs, acc =>
      if x = c then acc.reverse :: splitCharAux c xs []
      else splitCharAux c xs (x :: acc)

/-- Python `s.split('\n')`. -/
def splitNl (s : String) : List String :=
  (splitCharAux '\n' s.toList []).map String.mk

/-- Python `str.splitlines()` restricted to `'\n'` line endings (the only
line ending the program's data contains): like `split('\n')` but an empty
string gives `[]` and a trailing newline does not contribute a final empty
piece. -/
def pySplitlines (s : String) : List String :=
  if s = "" then []
  else
    let parts := splitNl s
    if parts.getLast? = some "" then parts.dropLast else parts

/-- Python `str.split()` (no argument): split on whitespace runs, no empty
pieces. -/
def pyWordsAux : List Char → List Char → List (List Char)
  | [], acc => if acc = [] then [] else [acc.reverse]
  | c :: cs, acc =>
      if c.isWhitespace then
        (if acc = [] then pyWordsAux cs [] else acc.reverse :: pyWordsAux cs [])
      else pyWordsAux cs (c :: acc)

/-- Python `str.split()` with no separator argument. -/
def pySplitWs (s : String) : List String :=
  (pyWordsAux s.toList []).map String.mk

/-- Python `str.capitalize()`: first character upper-cased, the rest
lower-cased (ASCII). -/
def pyCapitalize (s : String) : String :=
  match s.toList with
  | [] => ""
  | c :: cs => ⟨c.toUpper :: cs.map Char.toLower⟩

/-- Python `str.title()`: the first letter of every maximal alphabetic run
is upper-cased, the following letters lower-cased; non-letters are word
boundaries (ASCII). -/
def pyTitleAux : Bool → List Char → List Char
  | _, [] => []
  | prevAlpha, c :: cs =>
      (if c.isAlpha then (if prevAlpha then c.toLower else c.toUpper) else c)
        :: pyTitleAux c.isAlpha cs

/-- Python `str.title()`. -/
def pyTitle (s : String) : String :=
  ⟨pyTitleAux false s.toList⟩

/-- Python `key.replace('_', ' ')` (single-character pattern). -/
def underscoresToSpaces (s : String) : String :=
  ⟨s.toList.map fun c => if c = '_' then ' ' else c⟩

/-- Python `s.replace(' ', '_')` (single-character pattern). -/
def spacesToUnderscores (s : String) : String :=
  ⟨s.toList.map fun c => if c = ' ' then '_' else c⟩

/-! ## gemini_optimizer.py -/

/-- `ResumeOptimizer` (gemini_optimizer.py lines 6-11): holds the configured
credential and the fixed model identifier `'gemini-pro'`. -/
structure ResumeOptimizer where
  api_key : String
  model : String
  deriving DecidableEq, Repr

/-- `ResumeOptimizer.__init__` (gemini_optimizer.py lines 7-11).
`if not api_key:` is Python string falsiness, i.e. exactly the empty
string; `genai.configure`/`GenerativeModel` are construction-time black
boxes that raise nothing themselves. -/
def ResumeOptimizer.init (api_key : String) : Except String ResumeOptimizer :=
  if api_key = "" then .error "Google AI API key is required."
  else .ok ⟨api_key, "gemini-pro"⟩

/-- The fixed instruction template of `enhance_resume_content`
(gemini_optimizer.py lines 35-70) up to the point where the raw resume
text is interpolated. -/
def geminiPromptPrefix : String :=
  "You are an expert resume writer and ATS optimization specialist. Your goal is to rewrite the given resume to be over 90% ATS-friendly, recruiter-friendly, and highly professional. You must remove all dummy text and use only clear, factual information.\n\n**General Rules:**\n1.  **Perfection:** Correct all spelling, grammar, and punctuation errors.\n2.  **Professional Tone:** Enhance sentences to be impactful and professional, using strong action verbs (e.g., Developed, Designed, Managed, Implemented).\n3.  **Keywords:** Strategically include relevant ATS-friendly keywords (e.g., WordPress, HTML, CSS, JavaScript, PHP, MySQL, UI/UX, SEO).\n4.  **Honesty:** Keep all details truthful. Do not invent or embellish experience.\n\n**Section-Specific Formatting:**\n\n*   **Skills:**\n    *   Group skills into logical categories (e.g., Programming Languages, Frameworks, Tools).\n    *   Separate skills within a category with commas.\n    *   Example:\n        `Skills`\n        `Programming Languages: Python, JavaScript, SQL`\n        `Frameworks: React, Django, Node.js`\n\n*   **Education:**\n    *   Provide the accurate course name, institution, GPA/percentage, and years.\n    *   Format: `[Course Name], [Institution Name] - [GPA/Percentage] ([Start Year] - [End Year])`\n\n*   **Experience:**\n    *   Start each bullet point on a new line with a strong action verb.\n    *   Clearly describe responsibilities and achievements.\n\n*   **Projects:**\n    *   Clearly state the technologies used, your role, and the results or impact of the project.\n\n**Final Output Requirements:**\n*   Produce plain text with each section clearly labeled.\n*   Do not add any commentary or explanations, only the final rewritten resume content.\n\n**Input Resume Data:**\n"

/-- The full prompt built by `enhance_resume_content` (the f-string ends
with a newline after the interpolated resume data). -/
def gemini_prompt (raw_resume_data : String) : String :=
  geminiPromptPrefix ++ raw_resume_data ++ "\n"

/-- `ResumeOptimizer._query_gemini` (gemini_optimizer.py lines 13-25).
The black-box `generate_content`/`response.text` behaviour is the
`outcome` parameter: `.ok t` means the call succeeded and `response.text`
is `t`; `.error e` is any raised failure (network, auth, quota, malformed
response).  The broad `except Exception` turns every failure into `""`,
and a success is returned as `response.text.strip()`. -/
def query_gemini (outcome : Except String String) (_prompt : String) : String :=
  match outcome with
  | .ok text => pyStrip text
  | .error _ => ""

/-- `ResumeOptimizer.enhance_resume_content` (gemini_optimizer.py lines
27-71).  The second component counts how many times the underlying
model call is invoked (0 or 1). -/
def enhance_resume_content (outcome : Except String String)
    (raw_resume_data : String) : String × Nat :=
  if pyStrip raw_resume_data = "" then ("", 0)
  else (query_gemini outcome (gemini_prompt raw_resume_data), 1)

/-! ## resume_builder.py — utilities -/

/-- `standardize_name` (resume_builder.py lines 36-39): each
whitespace-separated token capitalized, rejoined with single spaces. -/
def standardize_name (name : String) : String :=
  if name = "" then ""
  else " ".intercalate ((pySplitWs (pyStrip name)).map pyCapitalize)

/-- A modelled Python runtime failure. -/
inductive PyError
  | nameError (missing : String)
  deriving DecidableEq, Repr

/-- The per-line transform written on resume_builder.py line 44,
`re.sub(r'^\s*[-*•]\s*', '', ln).strip()`, as the regex semantics
prescribe: the substitution removes one leading run of whitespace, one
bullet marker (`-`, `*` or `•`) and the whitespace after it, when such a
marker is present at the start; then both ends are stripped. -/
def clean_line (ln : String) : String :=
  let cs := ln.toList
  let rest := cs.dropWhile Char.isWhitespace
  let afterSub :=
    match rest with
    | c :: tail =>
        if c = '-' ∨ c = '*' ∨ c = '•' then tail.dropWhile Char.isWhitespace
        else cs
    | [] => cs
  pyStrip ⟨afterSub⟩

/-- The list of lines `clean_multiline` (resume_builder.py lines 41-45) is
written to produce: each splitline cleaned with `clean_line`, lines that
become empty dropped, order preserved.  This is exactly lines 44-45 of
the source as they would execute with `re` in scope. -/
def clean_multiline_lines (text : String) : List String :=
  if text = "" then []
  else ((pySplitlines text).map clean_line).filter (· != "")

/-- `clean_multiline` (resume_builder.py lines 41-45) as it actually
executes: resume_builder.py never imports `re` (the only `import re` in
the repository is in gemini_optimizer.py, whose names are not visible in
resume_builder), so the `re.sub` call on line 44 raises
`NameError: name 're' is not defined` for every input that gets past the
`if not text` guard. -/
def clean_multiline (text : String) : Except PyError String :=
  if text = "" then .ok ""
  else .error (.nameError "re")

/-! ## resume_builder.py — data_to_text -/

/-- A Python value as it occurs in the resume data dictionary handed to
`data_to_text`: a string, a list of sub-record dictionaries (string
keys and values), or a string-to-string mapping (the skills dict). -/
inductive PyVal
  | str (s : String)
  | list (entries : List (List (String × String)))
  | dict (m : List (String × String))
  deriving DecidableEq, Repr

/-- The lines `data_to_text` appends for the attributes of one sub-record
(resume_builder.py lines 54-57): one `"Key_Title: value"` line per
truthy attribute, then one `"\n"` entry. -/
def entry_lines (entry : List (String × String)) : List String :=
  ((entry.filter fun kv => kv.2 != "").map fun kv => pyTitle kv.1 ++ ": " ++ kv.2)
    ++ ["\n"]

/-- The lines `data_to_text` (resume_builder.py lines 47-60) appends for
one top-level field: a heading plus attribute lines for a non-empty
list, a single heading-plus-value line for a non-empty string, nothing
for anything else (in particular nothing for a dict such as `skills`). -/
def field_lines : String × PyVal → List String
  | (key, .list l) =>
      if l = [] then []
      else ("# " ++ pyTitle (underscoresToSpaces key) ++ "\n")
        :: (l.map entry_lines).flatten
  | (key, .str s) =>
      if s = "" then []
      else ["# " ++ pyTitle (underscoresToSpaces key) ++ "\n" ++ s ++ "\n"]
  | (_, .dict _) => []

/-- The `lines` list accumulated by `data_to_text`. -/
def data_to_text_lines (data : List (String × PyVal)) : List String :=
  (data.map field_lines).flatten

/-- `data_to_text` (resume_builder.py lines 47-60): `"\n".join(lines)`. -/
def data_to_text (data : List (String × PyVal)) : String :=
  "\n".intercalate (data_to_text_lines data)

/-- Substring test used to state "the serialized text contains / does not
contain" properties. -/
def listStartsWith : List Char → List Char → Bool
  | [], _ => true
  | _ :: _, [] => false
  | a :: as, b :: bs => a = b && listStartsWith as bs

/-- `containsSub needle hay`: `needle` occurs as a contiguous substring of
`hay`. -/
def containsSub (needle : List Char) : List Char → Bool
  | [] => needle.isEmpty
  | c :: rest => listStartsWith needle (c :: rest) || containsSub needle rest

/-! ## resume_builder.py — flow construction (_make_flow) -/

/-- The named paragraph styles `_make_flow` builds (resume_builder.py
lines 121-128); the flow-level claims depend only on which style a
paragraph carries, so the style is the tag (the numeric sizes are the
`*_size` parameters threaded through `make_flow` below). -/
inductive PStyle
  | name | title | section | body | bodyCenter | small | bullet
  deriving DecidableEq, Repr

/-- One renderable content block, mirroring the flowables `_make_flow`
emits: `Paragraph(text, style)`, `HRLine(width, thickness, space_before,
space_after, align)` and `Spacer(w, h)`. -/
inductive Flowable
  | para (text : String) (style : PStyle)
  | hr (width : String) (thickness space_before space_after : ℚ) (align : String)
  | spacer (w h : ℚ)
  deriving DecidableEq, Repr

/-- Education entry dictionary (shape seeded by `init_state`,
resume_builder.py line 448). -/
structure EduEntry where
  degree : String
  institution : String
  start_year : String
  end_year : String
  description : String
  location : String
  gpa : String
  courses : String
  deriving DecidableEq, Repr

/-- Experience entry dictionary (resume_builder.py lines 449-462).
`description_bullets` is read by `_make_flow` line 193 via
`x.get("description_bullets")`; an absent key behaves like `[]` under the
`or` fallback. -/
structure ExpEntry where
  job_title : String
  company : String
  location : String
  start_year : String
  end_year : String
  description : String
  team_size : String
  technologies : String
  description_bullets : List String
  deriving DecidableEq, Repr

/-- Project entry dictionary (resume_builder.py lines 463-473). -/
structure ProjEntry where
  title : String
  link : String
  start_year : String
  end_year : String
  description : String
  outcome : String
  description_bullets : List String
  deriving DecidableEq, Repr

/-- Certificate entry dictionary (resume_builder.py line 474). -/
structure CertEntry where
  name : String
  organization : String
  year : String
  url : String
  deriving DecidableEq, Repr

/-- Achievement entry dictionary (resume_builder.py line 475). -/
structure AchEntry where
  title : String
  year : String
  description : String
  deriving DecidableEq, Repr

/-- The resume data dictionary assembled by the generate action
(resume_builder.py lines 615-626), with its fixed key set. -/
structure ResumeData where
  full_name : String
  job_title : String
  address : String
  email : String
  phone : String
  linkedin_url : String
  github_url : String
  website : String
  job_description : String
  professional_summary : String
  languages : String
  education_entries : List EduEntry
  experience_entries : List ExpEntry
  project_entries : List ProjEntry
  certificate_entries : List CertEntry
  achievement_entries : List AchEntry
  skills : List (String × String)
  deriving DecidableEq, Repr

/-- `add_section` (resume_builder.py lines 142-147): nothing for an empty
element list, otherwise a section-title paragraph, a full-width
horizontal rule, then the elements. -/
def add_section (title : String) (line_thick : ℚ) (elements : List Flowable) :
    List Flowable :=
  if elements = [] then []
  else Flowable.para title .section
    :: Flowable.hr "100%" line_thick 0 0 "CENTER"
    :: elements

/-- Professional Summary section (resume_builder.py lines 149-151). -/
def summary_flow (line_thick : ℚ) (d : ResumeData) : List Flowable :=
  if d.professional_summary ≠ "" then
    add_section "Professional Summary" line_thick
      [.para d.professional_summary .body]
  else []

/-- The per-category skill lines (resume_builder.py lines 156-160). -/
def skills_flowables (d : ResumeData) : List Flowable :=
  (d.skills.filter fun p => p.2 != "" && pyStrip p.2 != "").map fun p =>
    .para ("•&nbsp;&nbsp;<b>" ++ p.1 ++ ":</b> " ++ pyStrip p.2) .body

/-- Skills section (resume_builder.py lines 153-162); the source's
`if skills_flowables:` test is the same emptiness test `add_section`
performs itself. -/
def skills_flow (line_thick : ℚ) (d : ResumeData) : List Flowable :=
  if d.skills.any fun p => p.2 != "" then
    add_section "SKILLS" line_thick (skills_flowables d)
  else []

/-- The flowables one education entry contributes (resume_builder.py
lines 166-181). -/
def edu_entry_elems (e : EduEntry) : List Flowable :=
  if e.degree ≠ "" ∧ e.institution ≠ "" then
    let when := e.start_year ++ (if e.end_year ≠ "" then " — " ++ e.end_year else "")
    let inst_line := e.institution
      ++ (if e.location ≠ "" then " (" ++ e.location ++ ")" else "")
      ++ (if e.gpa ≠ "" then " | GPA: " ++ e.gpa else "")
    [.para ("<b>" ++ e.degree ++ "</b> &nbsp;&nbsp; " ++ when) .body]
      ++ (if inst_line ≠ "" then [.para inst_line .small] else [])
      ++ (if e.courses ≠ "" then [.para ("Relevant Courses: " ++ e.courses) .small] else [])
      ++ (if e.description ≠ "" then [.para e.description .small] else [])
  else []

/-- Education section (resume_builder.py lines 164-182). -/
def edu_flow (line_thick : ℚ) (d : ResumeData) : List Flowable :=
  add_section "Education" line_thick
    ((d.education_entries.map edu_entry_elems).flatten)

/-- Bullet source for an experience entry (resume_builder.py line 193):
the pre-split list if non-empty, else the description's stripped
non-blank lines. -/
def exp_bullets (x : ExpEntry) : List String :=
  if x.description_bullets ≠ [] then x.description_bullets
  else ((splitNl x.description).map pyStrip).filter (· != "")

/-- The flowables one experience entry contributes (resume_builder.py
lines 186-199); `not_last` is the source's `i < len(entries) - 1`
spacer condition. -/
def exp_entry_elems (max_bullets_per_exp : Nat) (x : ExpEntry) (not_last : Bool) :
    List Flowable :=
  if x.job_title ≠ "" ∧ x.company ≠ "" then
    let when := x.start_year ++ (if x.end_year ≠ "" then " — " ++ x.end_year else "")
    [.para ("<b>" ++ x.job_title ++ "</b>, <i>" ++ x.company ++ "</i> &nbsp;&nbsp; " ++ when) .body]
      ++ ((exp_bullets x).take max_bullets_per_exp).map
          (fun b => .para ("•&nbsp;&nbsp;" ++ b) .bullet)
      ++ (if not_last then [.spacer 1 4] else [])
  else []

/-- Experience section (resume_builder.py lines 184-200). -/
def exp_flow (line_thick : ℚ) (max_bullets_per_exp : Nat) (d : ResumeData) :
    List Flowable :=
  add_section "EXPERIENCE" line_thick
    ((d.experience_entries.enum.map fun ix =>
        exp_entry_elems max_bullets_per_exp ix.2
          (decide (ix.1 + 1 < d.experience_entries.length))).flatten)

/-- Bullet source for a project entry (resume_builder.py line 215). -/
def proj_bullets (p : ProjEntry) : List String :=
  if p.description_bullets ≠ [] then p.description_bullets
  else ((splitNl p.description).map pyStrip).filter (· != "")

/-- The flowables one project entry contributes (resume_builder.py
lines 204-221). -/
def proj_entry_elems (max_bullets_per_proj : Nat) (p : ProjEntry) (not_last : Bool) :
    List Flowable :=
  if p.title ≠ "" then
    let parts := ["<b>" ++ p.title ++ "</b>"]
      ++ (if p.start_year ≠ "" ∨ p.end_year ≠ "" then
            ["(" ++ p.start_year ++ " - " ++ p.end_year ++ ")"] else [])
      ++ (if p.link ≠ "" then
            ["<a href=\"" ++ p.link ++ "\" color=\"blue\"><u>Project Link</u></a>"] else [])
    [.para (" &nbsp;&nbsp; ".intercalate parts) .body]
      ++ ((proj_bullets p).take max_bullets_per_proj).map
          (fun b => .para ("•&nbsp;&nbsp;" ++ b) .bullet)
      ++ (if not_last then [.spacer 1 4] else [])
  else []

/-- Projects section (resume_builder.py lines 202-222). -/
def proj_flow (line_thick : ℚ) (max_bullets_per_proj : Nat) (d : ResumeData) :
    List Flowable :=
  add_section "PROJECTS" line_thick
    ((d.project_entries.enum.map fun ix =>
        proj_entry_elems max_bullets_per_proj ix.2
          (decide (ix.1 + 1 < d.project_entries.length))).flatten)

/-- The flowables one certificate entry contributes (resume_builder.py
lines 226-239). -/
def cert_entry_elems (c : CertEntry) : List Flowable :=
  if c.name ≠ "" then
    let extras := (if c.organization ≠ "" then [c.organization] else [])
      ++ (if c.year ≠ "" then [c.year] else [])
      ++ (if c.url ≠ "" then
            ["<a href=\"" ++ c.url ++ "\" color=\"blue\"><u>Credential</u></a>"] else [])
    [.para ("• <b>" ++ c.name ++ "</b>"
        ++ (if extras ≠ [] then " — " ++ " | ".intercalate extras else "")) .body]
  else []

/-- Certificates section (resume_builder.py lines 224-240). -/
def cert_flow (line_thick : ℚ) (d : ResumeData) : List Flowable :=
  add_section "Certificates" line_thick
    ((d.certificate_entries.map cert_entry_elems).flatten)

/-- The flowables one achievement entry contributes (resume_builder.py
lines 244-252). -/
def ach_entry_elems (a : AchEntry) : List Flowable :=
  if a.title ≠ "" then
    [.para ("• " ++ a.title
        ++ (if a.year ≠ "" then " — " ++ a.year else "")
        ++ (if a.description ≠ "" then ": " ++ a.description else "")) .body]
  else []

/-- Achievements section (resume_builder.py lines 242-253). -/
def ach_flow (line_thick : ℚ) (d : ResumeData) : List Flowable :=
  add_section "Achievements" line_thick
    ((d.achievement_entries.map ach_entry_elems).flatten)

/-- Languages section (resume_builder.py lines 255-257). -/
def lang_flow (line_thick : ℚ) (d : ResumeData) : List Flowable :=
  if d.languages ≠ "" then
    add_section "Languages Known" line_thick [.para d.languages .body]
  else []

/-- `_make_flow` (resume_builder.py lines 114-259): the concatenation of
the eight sections in source order.  The `*_size` parameters configure
the paragraph styles (lines 121-128) and do not influence which blocks
are emitted; they are kept to mirror the source signature. -/
def make_flow (_name_size _title_size _section_size _body_size _small_size
    _bullet_size : ℚ) (line_thick : ℚ)
    (max_bullets_per_exp max_bullets_per_proj : Nat) (d : ResumeData) :
    List Flowable :=
  summary_flow line_thick d
    ++ skills_flow line_thick d
    ++ edu_flow line_thick d
    ++ exp_flow line_thick max_bullets_per_exp d
    ++ proj_flow line_thick max_bullets_per_proj d
    ++ cert_flow line_thick d
    ++ ach_flow line_thick d
    ++ lang_flow line_thick d

/-! ## resume_builder.py — header drawing and single-page assembly -/

/-- One reportlab millimeter in points (`mm` from reportlab.lib.units,
72/25.4). -/
def mmUnit : ℚ := 720 / 254

/-- A4 page height in points (297 mm). -/
def a4_height : ℚ := 297 * mmUnit

/-- A4 page width in points (210 mm). -/
def a4_width : ℚ := 210 * mmUnit

/-- `_draw_header` (resume_builder.py lines 296-336) reduced to the value
it returns: the vertical cursor left for the body.  With the styles
`build_pdf_single_page` prepares (lines 370-374), the Name style carries
`leading = 16 + 2 = 18`, while the stylesheet "Title" style keeps its
sample-sheet leading 22 (only its font size and alignment are updated).
`contactH` is the black-box wrapped height of the contact paragraph
(`p.wrapOn`, line 330). -/
def draw_header (contactH : ℚ) (pageHeight : ℚ) (d : ResumeData) : ℚ :=
  let y0 := pageHeight - 8 * mmUnit
  let y1 := if standardize_name d.full_name ≠ "" then y0 - 18 * (4/5) else y0
  let y2 := if pyStrip d.job_title ≠ "" then y1 - 22 * (4/5) else y1
  let contact_items :=
    (if d.address ≠ "" then [d.address] else [])
      ++ (if d.email ≠ "" then [d.email] else [])
      ++ (if d.phone ≠ "" then [d.phone] else [])
      ++ (if d.linkedin_url ≠ "" then
            ["<a href=\"" ++ d.linkedin_url ++ "\" color=\"blue\"><u>LinkedIn</u></a>"] else [])
      ++ (if d.github_url ≠ "" then
            ["<a href=\"" ++ d.github_url ++ "\" color=\"blue\"><u>GitHub</u></a>"] else [])
      ++ (if d.website ≠ "" then
            ["<a href=\"" ++ d.website ++ "\" color=\"blue\"><u>Portfolio</u></a>"] else [])
  let contact_line := " | ".intercalate contact_items
  let y3 := if contact_line ≠ "" then y2 - contactH * (6/5) else y2
  y3 - 4 * mmUnit

/-- The drawing loop of `build_pdf_single_page` (resume_builder.py lines
378-385): measure each flowable (`hts` is the black-box `wrapOn` height),
stop at the first block whose bottom would cross below the bottom margin,
drop it and everything after it; the result is the list of blocks
actually drawn. -/
def draw_flow (hts : Flowable → ℚ) (bottom_margin : ℚ) :
    List Flowable → ℚ → List Flowable
  | [], _ => []
  | f :: fs, y =>
      if y - hts f < bottom_margin then []
      else f :: draw_flow hts bottom_margin fs (y - hts f)

/-- Modelled from the spec (§6 "PDF output format"): the reportlab canvas
is a black box that serializes the drawn operations into an in-memory
byte sequence beginning with the standard PDF file header.  Only the
header's non-emptiness matters to any claim. -/
def pdfFileHeader : List Nat := ("%PDF-1.4".toList).map Char.toNat

/-- Modelled from the spec (§6): byte contribution of one drawn block in
the canvas serialization. -/
def flowable_bytes : Flowable → List Nat
  | .para t _ => t.toList.map Char.toNat
  | .hr _ _ _ _ _ => [37]
  | .spacer _ _ => [32]

/-- The compact preset of `build_pdf_single_page` (resume_builder.py line
349): `sizes = {"name": 16, "title": 10, "section": 10, "body": 9,
"small": 8, "bullet": 9, "line": 0.5}`. -/
def compact_line_thick : ℚ := 1/2

/-- `limits = {"exp": 4, "proj": 4}` (resume_builder.py line 350). -/
def build_limits_exp : Nat := 4

/-- `limits["proj"]` (resume_builder.py line 350). -/
def build_limits_proj : Nat := 4

/-- Bottom margin of the single-page assembly (resume_builder.py line 364). -/
def bottom_margin : ℚ := 10 * mmUnit

/-- The flow `build_pdf_single_page` constructs (resume_builder.py lines
351-358): `_make_flow` at the fixed compact preset. -/
def compact_flow (d : ResumeData) : List Flowable :=
  make_flow 16 10 10 9 8 9 compact_line_thick build_limits_exp build_limits_proj d

/-- The blocks actually drawn by `build_pdf_single_page`: the drawing
loop applied to the compact flow, starting from the cursor the header
drawing returns. -/
def drawn_blocks (hts : Flowable → ℚ) (contactH : ℚ) (d : ResumeData) :
    List Flowable :=
  draw_flow hts bottom_margin (compact_flow d) (draw_header contactH a4_height d)

/-- `build_pdf_single_page` (resume_builder.py lines 338-390): draws the
header, then the flow with overflow truncation, and returns the canvas
bytes (serialization modelled per §6). -/
def build_pdf_single_page (hts : Flowable → ℚ) (contactH : ℚ) (d : ResumeData) :
    List Nat :=
  pdfFileHeader ++ ((drawn_blocks hts contactH d).map flowable_bytes).flatten

/-! ## resume_builder.py — generation workflow -/

/-- Education entry as the dictionary `data_to_text` iterates
(key order of the `init_state` literal, resume_builder.py line 448). -/
def edu_dict (e : EduEntry) : List (String × String) :=
  [("degree", e.degree), ("institution", e.institution),
   ("start_year", e.start_year), ("end_year", e.end_year),
   ("description", e.description), ("location", e.location),
   ("gpa", e.gpa), ("courses", e.courses)]

/-- Experience entry as a dictionary (resume_builder.py lines 450-461). -/
def exp_dict (x : ExpEntry) : List (String × String) :=
  [("job_title", x.job_title), ("company", x.company),
   ("location", x.location), ("start_year", x.start_year),
   ("end_year", x.end_year), ("description", x.description),
   ("team_size", x.team_size), ("technologies", x.technologies)]

/-- Project entry as a dictionary (resume_builder.py lines 464-472). -/
def proj_dict (p : ProjEntry) : List (String × String) :=
  [("title", p.title), ("link", p.link), ("start_year", p.start_year),
   ("end_year", p.end_year), ("description", p.description),
   ("outcome", p.outcome)]

/-- Certificate entry as a dictionary (resume_builder.py line 474). -/
def cert_dict (c : CertEntry) : List (String × String) :=
  [("name", c.name), ("organization", c.organization),
   ("year", c.year), ("url", c.url)]

/-- Achievement entry as a dictionary (resume_builder.py line 475). -/
def ach_dict (a : AchEntry) : List (String × String) :=
  [("title", a.title), ("year", a.year), ("description", a.description)]

/-- The `data` dictionary assembled by the generate action
(resume_builder.py lines 615-626), in its literal key order, as the
association list `data_to_text` iterates. -/
def data_assoc (d : ResumeData) : List (String × PyVal) :=
  [("full_name", .str d.full_name), ("job_title", .str d.job_title),
   ("address", .str d.address), ("email", .str d.email),
   ("phone", .str d.phone), ("linkedin_url", .str d.linkedin_url),
   ("github_url", .str d.github_url), ("website", .str d.website),
   ("job_description", .str d.job_description),
   ("professional_summary", .str d.professional_summary),
   ("languages", .str d.languages),
   ("education_entries", .list (d.education_entries.map edu_dict)),
   ("experience_entries", .list (d.experience_entries.map exp_dict)),
   ("project_entries", .list (d.project_entries.map proj_dict)),
   ("certificate_entries", .list (d.certificate_entries.map cert_dict)),
   ("achievement_entries", .list (d.achievement_entries.map ach_dict)),
   ("skills", .dict d.skills)]

/-- The `required` dictionary of the minimal validation
(resume_builder.py lines 640-649), in its literal key order. -/
def required_fields (d : ResumeData) : List (String × String) :=
  [("Full Name", d.full_name), ("Job Title", d.job_title),
   ("Address", d.address), ("Email", d.email), ("Phone", d.phone),
   ("LinkedIn URL", d.linkedin_url),
   ("Professional Summary", d.professional_summary),
   ("Languages", d.languages)]

/-- `missing` (resume_builder.py line 650): labels whose value is empty
after trimming, in the `required` dictionary's order. -/
def missing_fields (d : ResumeData) : List String :=
  ((required_fields d).filter fun kv => pyStrip kv.2 == "").map Prod.fst

/-- Outcome of the generate action (resume_builder.py lines 651-662):
either the validation error listing the missing labels, or the PDF bytes
offered under the download filename. -/
inductive GenOutcome
  | validationError (missing : List String)
  | pdf (bytes : List Nat) (filename : String)
  deriving DecidableEq, Repr

/-- The raw form values the generate action collects (resume_builder.py
lines 614-626); `collect_data` applies `standardize_name` to the full
name exactly as line 616 does. -/
structure FormInputs where
  full_name : String
  job_title : String
  address : String
  email : String
  phone : String
  linkedin_url : String
  github_url : String
  website : String
  job_description : String
  professional_summary : String
  languages : String
  education_entries : List EduEntry
  experience_entries : List ExpEntry
  project_entries : List ProjEntry
  certificate_entries : List CertEntry
  achievement_entries : List AchEntry
  skills : List (String × String)
  deriving DecidableEq, Repr

/-- The `data` snapshot (resume_builder.py lines 615-626). -/
def collect_data (inp : FormInputs) : ResumeData :=
  { full_name := standardize_name inp.full_name
    job_title := inp.job_title
    address := inp.address
    email := inp.email
    phone := inp.phone
    linkedin_url := inp.linkedin_url
    github_url := inp.github_url
    website := inp.website
    job_description := inp.job_description
    professional_summary := inp.professional_summary
    languages := inp.languages
    education_entries := inp.education_entries
    experience_entries := inp.experience_entries
    project_entries := inp.project_entries
    certificate_entries := inp.certificate_entries
    achievement_entries := inp.achievement_entries
    skills := inp.skills }

/-- The generate workflow (resume_builder.py lines 612-662): collect the
data, run the whole-resume enhancement when a credential is present
(stored for review only), then validate and either report the missing
labels or build and offer the PDF.  `outcome` is the black-box model
call behaviour, `hts`/`contactH` the black-box reportlab measurements. -/
def generate_resume (hts : Flowable → ℚ) (contactH : ℚ)
    (outcome : Except String String) (api_key : String) (inp : FormInputs) :
    Option String × GenOutcome :=
  let data := collect_data inp
  let enhanced :=
    if api_key ≠ "" then
      some (enhance_resume_content outcome (data_to_text (data_assoc data))).1
    else none
  let missing := missing_fields data
  (enhanced,
    if missing ≠ [] then .validationError missing
    else .pdf (build_pdf_single_page hts contactH data)
      (spacesToUnderscores data.full_name ++ "_Resume.pdf"))

/-! ## Definitions supporting the claim statements -/

/-- A top-level field that `data_to_text` does not skip for emptiness:
neither an empty-string field nor an empty-list field. -/
def nonemptyField : String × PyVal → Bool
  | (_, .str s) => s != ""
  | (_, .list l) => !l.isEmpty
  | (_, .dict _) => true

/-- A top-level field that is not a mapping. -/
def nonDictField : String × PyVal → Bool
  | (_, .str _) => true
  | (_, .list _) => true
  | (_, .dict _) => false

/-- C7's scenario: a record with one non-empty professional summary and an
all-empty skills mapping. -/
def c7_example : List (String × PyVal) :=
  [("professional_summary", .str "Seasoned software engineer."),
   ("skills", .dict [("programming", ""), ("frameworks", ""),
                     ("databases", ""), ("tools", "")])]

/-- C10's scenario: a skills mapping in which every category is
non-empty. -/
def c10_skills : List (String × String) :=
  [("programming", "Python"), ("frameworks", "Streamlit, WordPress"),
   ("databases", "MySQL"), ("tools", "Git, Docker")]

/-- C10's record: a non-empty summary together with the fully populated
skills mapping. -/
def c10_example : List (String × PyVal) :=
  [("professional_summary", .str "Builds web applications."),
   ("skills", .dict c10_skills)]

/-- The eight logical sections of the flow construction. -/
inductive SectionId
  | summary | skills | education | experience | projects
  | certificates | achievements | languages
  deriving DecidableEq, Repr

/-- The title string each section's `add_section` call passes
(resume_builder.py lines 151, 162, 182, 200, 222, 240, 253, 257). -/
def section_title : SectionId → String
  | .summary => "Professional Summary"
  | .skills => "SKILLS"
  | .education => "Education"
  | .experience => "EXPERIENCE"
  | .projects => "PROJECTS"
  | .certificates => "Certificates"
  | .achievements => "Achievements"
  | .languages => "Languages Known"

/-- The contribution of one section to the flow, as `_make_flow` builds
it (so `make_flow` is definitionally the concatenation over the eight
sections in order). -/
def section_flow (line_thick : ℚ) (max_bullets_per_exp max_bullets_per_proj : Nat)
    (d : ResumeData) : SectionId → List Flowable
  | .summary => summary_flow line_thick d
  | .skills => skills_flow line_thick d
  | .education => edu_flow line_thick d
  | .experience => exp_flow line_thick max_bullets_per_exp d
  | .projects => proj_flow line_thick max_bullets_per_proj d
  | .certificates => cert_flow line_thick d
  | .achievements => ach_flow line_thick d
  | .languages => lang_flow line_thick d

/-- A section's "has at least one qualifying entry" predicate, read off
the guards of `_make_flow` (which implement §3's rendered-only-if
rules): a section is populated iff this holds. -/
def has_qualifying (d : ResumeData) : SectionId → Prop
  | .summary => d.professional_summary ≠ ""
  | .skills => ∃ p ∈ d.skills, p.2 ≠ "" ∧ pyStrip p.2 ≠ ""
  | .education => ∃ e ∈ d.education_entries, e.degree ≠ "" ∧ e.institution ≠ ""
  | .experience => ∃ x ∈ d.experience_entries, x.job_title ≠ "" ∧ x.company ≠ ""
  | .projects => ∃ p ∈ d.project_entries, p.title ≠ ""
  | .certificates => ∃ c ∈ d.certificate_entries, c.name ≠ ""
  | .achievements => ∃ a ∈ d.achievement_entries, a.title ≠ ""
  | .languages => d.languages ≠ ""

instance (d : ResumeData) (s : SectionId) : Decidable (has_qualifying d s) := by
  cases s <;> simp only [has_qualifying] <;> infer_instance

/-- Whether a flowable is a bullet-styled paragraph. -/
def is_bullet : Flowable → Bool
  | .para _ .bullet => true
  | _ => false

/-- A record with every field blank. -/
def empty_record : ResumeData :=
  { full_name := "", job_title := "", address := "", email := "", phone := ""
    linkedin_url := "", github_url := "", website := "", job_description := ""
    professional_summary := "", languages := "", education_entries := []
    experience_entries := [], project_entries := [], certificate_entries := []
    achievement_entries := [], skills := [] }

/-- C8's witness record: a populated summary and one qualifying
experience entry, everything else empty. -/
def c8_record : ResumeData :=
  { empty_record with
    professional_summary := "Ships reliable software."
    experience_entries :=
      [{ job_title := "Developer", company := "Acme", location := ""
         start_year := "2021", end_year := "", description := "Built the API"
         team_size := "", technologies := "", description_bullets := [] }] }

/-- C3's invalid scenario: every mandatory field populated except email
and languages. -/
def c3_missing_inputs : FormInputs :=
  { full_name := "jane roe", job_title := "Engineer", address := "12 Main St"
    email := "", phone := "555-0100"
    linkedin_url := "https://linkedin.example/jane", github_url := ""
    website := "", job_description := ""
    professional_summary := "Builds reliable systems.", languages := "  "
    education_entries := [], experience_entries := [], project_entries := []
    certificate_entries := [], achievement_entries := [], skills := [] }

/-- C3's valid scenario: all eight mandatory fields non-empty after
trimming. -/
def c3_valid_inputs : FormInputs :=
  { c3_missing_inputs with
    email := "jane@example.com", languages := "English, Telugu" }

/-- C9's witness entry: a qualifying experience entry whose description
has 7 non-blank lines and no pre-split bullet list. -/
def c9_entry : ExpEntry :=
  { job_title := "Software Engineer", company := "Acme", location := ""
    start_year := "2020", end_year := "2024"
    description := "Built A\nShipped B\nLed C\nFixed D\nTested E\nWrote F\nTuned G"
    team_size := "", technologies := "", description_bullets := [] }


/-- The three facts C8 asserts about one section of the flow: the section
contributes nothing exactly when it has no qualifying entry, a qualifying
section opens with its title block followed by the full-width rule, and a
title paragraph for the section sits in the flow exactly when the section
qualifies. -/
def SectionSpec (flow : List Flowable) (Q : Prop) (title : String) (lt : ℚ) : Prop :=
  (flow = [] ↔ ¬ Q) ∧
  (Q → ∃ rest, flow = Flowable.para title .section
      :: Flowable.hr "100%" lt 0 0 "CENTER" :: rest) ∧
  (∀ t, Flowable.para t .section ∈ flow ↔ (Q ∧ t = title))


/-! ## Theorems -/

/-- C1: for every raw input text and every behaviour of the underlying
model call, `enhance_resume_content` returns (it is a total function into
`String × Nat`, never an exception): when the underlying generation call
raises any failure the result is the empty string, and when it succeeds
the result is the returned text with surrounding whitespace stripped. -/
theorem C1_enhance_fail_open (raw : String) (outcome : Except String String)
    (h : pyStrip raw ≠ "") :
    enhance_resume_content outcome raw =
      ((match outcome with
        | .ok t => pyStrip t
        | .error _ => ""), 1) := by
  simp only [enhance_resume_content, query_gemini, if_neg h]

/-- Witness for C1 at a concrete input: a simulated network failure yields
`""`, a successful call yields the trimmed model text. -/
theorem C1_enhance_fail_open_witness :
    enhance_resume_content (.error "ReadTimeout: network unreachable")
        "Name: John" = ("", 1) ∧
    enhance_resume_content (.ok "  Rewritten resume.  ")
        "Name: John" = ("Rewritten resume.", 1) := by
  refine ⟨?_, ?_⟩
  · exact C1_enhance_fail_open "Name: John" (.error "ReadTimeout: network unreachable") (by decide)
  · exact C1_enhance_fail_open "Name: John" (.ok "  Rewritten resume.  ") (by decide)

/-- C4 counterexample: the claim says construction fails for every
whitespace-only credential, but `if not api_key:` only catches the empty
string — construction with the whitespace-only credential `" "` succeeds. -/
theorem C4_counterexample :
    ResumeOptimizer.init " " = .ok ⟨" ", "gemini-pro"⟩ := by
  rfl

/-- C4 (amended): construction fails with the invalid-input error exactly
for the empty credential string, and succeeds for every non-empty
credential string (including whitespace-only ones). -/
theorem C4_init_empty_only (api_key : String) :
    (api_key = "" →
      ResumeOptimizer.init api_key = .error "Google AI API key is required.") ∧
    (api_key ≠ "" →
      ResumeOptimizer.init api_key = .ok ⟨api_key, "gemini-pro"⟩) := by
  constructor
  · intro h; simp [ResumeOptimizer.init, h]
  · intro h; simp [ResumeOptimizer.init, h]

/-- Witness for C4 (amended) at concrete credentials. -/
theorem C4_init_empty_only_witness :
    ResumeOptimizer.init "" = .error "Google AI API key is required." ∧
    ResumeOptimizer.init "AIzaKey" = .ok ⟨"AIzaKey", "gemini-pro"⟩ := by
  refine ⟨?_, ?_⟩
  · exact (C4_init_empty_only "").1 rfl
  · exact (C4_init_empty_only "AIzaKey").2 (by decide)

/-- C5: for every empty or whitespace-only raw resume text,
`enhance_resume_content` returns the empty string immediately, and the
underlying model call is never invoked (call count 0). -/
theorem C5_blank_input_no_call (raw : String) (outcome : Except String String)
    (h : pyStrip raw = "") :
    enhance_resume_content outcome raw = ("", 0) := by
  simp only [enhance_resume_content, if_pos h]

/-- Witness for C5 at a concrete whitespace-only input. -/
theorem C5_blank_input_no_call_witness :
    enhance_resume_content (.ok "should never be used") "  \n\t  " = ("", 0) :=
  C5_blank_input_no_call "  \n\t  " (.ok "should never be used") (by decide)

/-- C6 (code bug): on the spec's example input, `clean_multiline` as it
actually executes raises `NameError` (resume_builder.py uses `re.sub` on
line 44 but never imports `re`), while the cleanup the line is written to
perform — strip one leading bullet marker and surrounding whitespace per
line, drop lines that become empty, preserve order — yields exactly
`["Did X", "Did Y", "Did Z"]`. -/
theorem C6_clean_multiline_name_error :
    clean_multiline "- Did X\n* Did Y\n  • Did Z\n\n" = .error (.nameError "re") ∧
    clean_multiline_lines "- Did X\n* Did Y\n  • Did Z\n\n" = ["Did X", "Did Y", "Did Z"] := by
  exact ⟨rfl, by decide⟩

/-- Dropping fields whose `field_lines` contribution is empty leaves the
serialization's line list unchanged. -/
theorem data_to_text_lines_filter (keep : String × PyVal → Bool)
    (h : ∀ p, keep p = false → field_lines p = [])
    (data : List (String × PyVal)) :
    data_to_text_lines (data.filter keep) = data_to_text_lines data := by
  induction data with
  | nil => rfl
  | cons p ps ih =>
    cases hk : keep p with
    | false =>
        simp only [data_to_text_lines, List.filter_cons, hk, Bool.false_eq_true,
          if_false, List.map_cons, List.flatten_cons, h p hk, List.nil_append]
        exact ih
    | true =>
        simp only [data_to_text_lines, List.filter_cons, hk, if_true,
          List.map_cons, List.flatten_cons]
        exact congrArg (fun l => field_lines p ++ l) ih

/-- C7: `data_to_text` omits every top-level field that is an empty string
or an empty list (filtering them away changes nothing), emits for every
non-empty string field its heading line followed by the string, and on
the record with a non-empty professional summary and an all-empty skills
mapping produces exactly the Professional Summary heading plus the
summary, with no "Skills" anywhere in the output. -/
theorem C7_data_to_text_fields (data : List (String × PyVal)) :
    data_to_text_lines (data.filter nonemptyField) = data_to_text_lines data ∧
    (∀ k s, (k, PyVal.str s) ∈ data → s ≠ "" →
      ("# " ++ pyTitle (underscoresToSpaces k) ++ "\n" ++ s ++ "\n")
        ∈ data_to_text_lines data) ∧
    data_to_text c7_example = "# Professional Summary\nSeasoned software engineer.\n" ∧
    containsSub "Skills".toList (data_to_text c7_example).toList = false := by
  refine ⟨?_, ?_, by decide, by decide⟩
  · refine data_to_text_lines_filter nonemptyField ?_ data
    rintro ⟨k, s | l | m⟩ hp
    · simp only [nonemptyField, bne_eq_false_iff_eq] at hp
      simp [field_lines, hp]
    · simp only [nonemptyField, Bool.not_eq_false', List.isEmpty_iff] at hp
      simp [field_lines, hp]
    · rfl
  · intro k s hmem hs
    refine List.mem_flatten.mpr ⟨field_lines (k, .str s), List.mem_map_of_mem _ hmem, ?_⟩
    simp [field_lines, hs]

/-- Witness for C7's heading-emission clause at the example record. -/
theorem C7_data_to_text_fields_witness :
    ("# " ++ pyTitle (underscoresToSpaces "professional_summary") ++ "\n"
        ++ "Seasoned software engineer." ++ "\n")
      ∈ data_to_text_lines c7_example :=
  (C7_data_to_text_fields c7_example).2.1 "professional_summary"
    "Seasoned software engineer." (by decide) (by decide)

/-- C10: `data_to_text` never serializes a mapping-valued field — removing
every dict field changes nothing, a record holding only a fully populated
skills mapping serializes to the empty string, and a record with a
summary plus a fully populated skills mapping serializes without any of
the skills content. -/
theorem C10_dict_fields_omitted (data : List (String × PyVal)) :
    data_to_text_lines (data.filter nonDictField) = data_to_text_lines data ∧
    data_to_text [("skills", PyVal.dict c10_skills)] = "" ∧
    data_to_text c10_example = "# Professional Summary\nBuilds web applications.\n" ∧
    containsSub "Python".toList (data_to_text c10_example).toList = false := by
  refine ⟨?_, by decide, by decide, by decide⟩
  refine data_to_text_lines_filter nonDictField ?_ data
  rintro ⟨k, s | l | m⟩ hp
  · simp [nonDictField] at hp
  · simp [nonDictField] at hp
  · rfl

/-- The drawing loop draws exactly the longest prefix of the flow that
fits: some `k` blocks are drawn, every drawn block kept the cursor at or
above the bottom margin, and if a block remains undrawn it is the first
one whose bottom would cross below the bottom margin. -/
theorem draw_flow_take (hts : Flowable → ℚ) (bm : ℚ) (l : List Flowable) (y : ℚ) :
    ∃ k, k ≤ l.length ∧ draw_flow hts bm l y = l.take k ∧
      (∀ i < k, bm ≤ y - ((l.take (i+1)).map hts).sum) ∧
      (k < l.length → y - ((l.take (k+1)).map hts).sum < bm) := by
  induction l generalizing y with
  | nil => exact ⟨0, by simp, rfl, by simp, by simp⟩
  | cons f fs ih =>
    by_cases hfit : y - hts f < bm
    · refine ⟨0, by simp, ?_, by simp, ?_⟩
      · simp [draw_flow, hfit]
      · intro _; simpa using hfit
    · obtain ⟨k, hk, hdraw, hfits, hstop⟩ := ih (y - hts f)
      refine ⟨k + 1, by simpa using Nat.succ_le_succ hk, ?_, ?_, ?_⟩
      · simp [draw_flow, hfit, hdraw]
      · intro i hi
        cases i with
        | zero => simpa using not_lt.mp hfit
        | succ j =>
            have hj : j < k := Nat.lt_of_succ_lt_succ hi
            have hle := hfits j hj
            simpa [List.take_succ_cons, List.sum_cons, sub_sub] using hle
      · intro hlt
        have hlt' : k < fs.length := Nat.lt_of_succ_lt_succ hlt
        have hx := hstop hlt'
        simpa [List.take_succ_cons, List.sum_cons, sub_sub] using hx

/-- The assembled document always begins with the PDF file header, so its
byte sequence is never empty. -/
theorem build_pdf_single_page_ne_nil (hts : Flowable → ℚ) (contactH : ℚ)
    (d : ResumeData) : build_pdf_single_page hts contactH d ≠ [] := by
  intro hcontra
  unfold build_pdf_single_page at hcontra
  exact absurd (List.append_eq_nil.mp hcontra).1 (by decide)

/-- C2: for every record and every black-box measurement of block heights
and contact-line height, `build_pdf_single_page` returns (total function,
no error path) a non-empty byte sequence, and the blocks drawn are
exactly a prefix of the compact flow: every drawn block fits above the
bottom margin, and as soon as one block's measured height would cross
below the bottom margin that block and all remaining blocks are dropped
(nothing beyond the prefix is drawn). -/
theorem C2_overflow_truncation (hts : Flowable → ℚ) (contactH : ℚ)
    (d : ResumeData) :
    build_pdf_single_page hts contactH d ≠ [] ∧
    ∃ k, k ≤ (compact_flow d).length ∧
      drawn_blocks hts contactH d = (compact_flow d).take k ∧
      (∀ i < k, bottom_margin ≤
        draw_header contactH a4_height d - (((compact_flow d).take (i+1)).map hts).sum) ∧
      (k < (compact_flow d).length →
        draw_header contactH a4_height d
          - (((compact_flow d).take (k+1)).map hts).sum < bottom_margin) :=
  ⟨build_pdf_single_page_ne_nil hts contactH d,
   draw_flow_take hts bottom_margin (compact_flow d) (draw_header contactH a4_height d)⟩

/-- Witness for C2 at a concrete record and measurement. -/
theorem C2_overflow_truncation_witness :
    build_pdf_single_page (fun _ => 1) 10 c8_record ≠ [] :=
  (C2_overflow_truncation (fun _ => 1) 10 c8_record).1

/-- C3: in the generation workflow, when any of the eight mandatory
fields is empty after trimming, the outcome is the user-visible
validation error carrying exactly the labels of the empty fields (one
iff per field, in the `required` dictionary's fixed order) and no PDF
bytes are produced; when all eight are non-empty after trimming, the PDF
is built (non-empty bytes) and offered under the download filename.  The
record in which only email and languages are blank yields exactly
`["Email", "Languages"]`. -/
theorem C3_generation_validation (hts : Flowable → ℚ) (contactH : ℚ)
    (outcome : Except String String) (api_key : String) (inp : FormInputs) :
    (missing_fields (collect_data inp) ≠ [] →
      (generate_resume hts contactH outcome api_key inp).2 =
        .validationError (missing_fields (collect_data inp))) ∧
    (missing_fields (collect_data inp) = [] →
      (generate_resume hts contactH outcome api_key inp).2 =
        .pdf (build_pdf_single_page hts contactH (collect_data inp))
          (spacesToUnderscores (collect_data inp).full_name ++ "_Resume.pdf") ∧
      build_pdf_single_page hts contactH (collect_data inp) ≠ []) ∧
    ("Full Name" ∈ missing_fields (collect_data inp) ↔
      pyStrip (standardize_name inp.full_name) = "") ∧
    ("Job Title" ∈ missing_fields (collect_data inp) ↔ pyStrip inp.job_title = "") ∧
    ("Address" ∈ missing_fields (collect_data inp) ↔ pyStrip inp.address = "") ∧
    ("Email" ∈ missing_fields (collect_data inp) ↔ pyStrip inp.email = "") ∧
    ("Phone" ∈ missing_fields (collect_data inp) ↔ pyStrip inp.phone = "") ∧
    ("LinkedIn URL" ∈ missing_fields (collect_data inp) ↔
      pyStrip inp.linkedin_url = "") ∧
    ("Professional Summary" ∈ missing_fields (collect_data inp) ↔
      pyStrip inp.professional_summary = "") ∧
    ("Languages" ∈ missing_fields (collect_data inp) ↔ pyStrip inp.languages = "") ∧
    missing_fields (collect_data c3_missing_inputs) = ["Email", "Languages"] ∧
    (generate_resume hts contactH outcome api_key c3_missing_inputs).2 =
      .validationError ["Email", "Languages"] := by
  refine ⟨?_, ?_, ?_, ?_, ?_, ?_, ?_, ?_, ?_, ?_, by decide, ?_⟩
  · intro h
    simp [generate_resume, h]
  · intro h
    refine ⟨?_, build_pdf_single_page_ne_nil hts contactH (collect_data inp)⟩
    simp [generate_resume, h]
  · simp [missing_fields, required_fields, collect_data, List.mem_map, List.mem_filter]
  · simp [missing_fields, required_fields, collect_data, List.mem_map, List.mem_filter]
  · simp [missing_fields, required_fields, collect_data, List.mem_map, List.mem_filter]
  · simp [missing_fields, required_fields, collect_data, List.mem_map, List.mem_filter]
  · simp [missing_fields, required_fields, collect_data, List.mem_map, List.mem_filter]
  · simp [missing_fields, required_fields, collect_data, List.mem_map, List.mem_filter]
  · simp [missing_fields, required_fields, collect_data, List.mem_map, List.mem_filter]
  · simp [missing_fields, required_fields, collect_data, List.mem_map, List.mem_filter]
  · have hm : missing_fields (collect_data c3_missing_inputs) = ["Email", "Languages"] := by
      decide
    simp [generate_resume, hm]

/-- Witness for C3: the valid scenario produces the PDF outcome with
non-empty bytes. -/
theorem C3_generation_validation_witness :
    (generate_resume (fun _ => 1) 10 (.ok "enhanced") "api-key" c3_valid_inputs).2 =
      .pdf (build_pdf_single_page (fun _ => 1) 10 (collect_data c3_valid_inputs))
        (spacesToUnderscores (collect_data c3_valid_inputs).full_name ++ "_Resume.pdf") ∧
    build_pdf_single_page (fun _ => 1) 10 (collect_data c3_valid_inputs) ≠ [] :=
  (C3_generation_validation (fun _ => 1) 10 (.ok "enhanced") "api-key"
    c3_valid_inputs).2.1 (by decide)

/-- `add_section` yields nothing exactly for an empty element list. -/
theorem add_section_eq_nil (title : String) (lt : ℚ) (elems : List Flowable) :
    add_section title lt elems = [] ↔ elems = [] := by
  unfold add_section
  by_cases he : elems = [] <;> simp [he]

/-- A title paragraph sits in an `add_section` block (whose elements hold
no section-styled paragraph) exactly when the block is non-empty and the
title matches. -/
theorem mem_add_section_title (title : String) (lt : ℚ) (elems : List Flowable)
    (t : String) (hclean : ∀ u, Flowable.para u .section ∉ elems) :
    (Flowable.para t .section ∈ add_section title lt elems ↔
      (elems ≠ [] ∧ t = title)) := by
  unfold add_section
  by_cases he : elems = []
  · simp [he]
  · rw [if_neg he]
    simp only [List.mem_cons]
    constructor
    · rintro (heq | heq | hmem)
      · injection heq with h1 h2
        exact ⟨he, h1⟩
      · exact absurd heq (by simp)
      · exact absurd hmem (hclean t)
    · rintro ⟨-, rfl⟩
      exact Or.inl rfl

/-- Build a `SectionSpec` for a section of the form `add_section title lt
elems` from cleanliness of the elements and the emptiness criterion. -/
theorem section_spec_of_add (title : String) (lt : ℚ) (elems : List Flowable)
    (Q : Prop) (hclean : ∀ u, Flowable.para u .section ∉ elems)
    (hq : elems = [] ↔ ¬ Q) :
    SectionSpec (add_section title lt elems) Q title lt := by
  refine ⟨?_, ?_, ?_⟩
  · rw [add_section_eq_nil]; exact hq
  · intro h
    have hne : elems ≠ [] := fun h0 => (hq.mp h0) h
    exact ⟨elems, by unfold add_section; rw [if_neg hne]⟩
  · intro t
    rw [mem_add_section_title title lt elems t hclean]
    constructor
    · rintro ⟨hne, rfl⟩
      exact ⟨by_contra fun hq' => hne (hq.mpr hq'), rfl⟩
    · rintro ⟨hQ, rfl⟩
      exact ⟨fun h0 => (hq.mp h0) hQ, rfl⟩

/-- A `SectionSpec` for an empty flow with a failing predicate. -/
theorem section_spec_nil (Q : Prop) (title : String) (lt : ℚ) (hnq : ¬ Q) :
    SectionSpec [] Q title lt :=
  ⟨by simp [hnq], fun hQ => absurd hQ hnq, by simp [hnq]⟩

/-- No element list of a flatten-of-map holds a section-styled paragraph
when no per-entry list does. -/
theorem flatten_map_clean {α : Type} (l : List α) (f : α → List Flowable)
    (h : ∀ a u, Flowable.para u .section ∉ f a) :
    ∀ u, Flowable.para u .section ∉ (l.map f).flatten := by
  intro u hmem
  rcases List.mem_flatten.mp hmem with ⟨le, hle, hu⟩
  rcases List.mem_map.mp hle with ⟨a, ha, rfl⟩
  exact h a u hu

/-- A flatten-of-map is empty exactly when every entry's list is, i.e.
when no entry satisfies its guard. -/
theorem flatten_map_nil {α : Type} (l : List α) (f : α → List Flowable)
    (g : α → Prop) (h : ∀ a, f a = [] ↔ ¬ g a) :
    ((l.map f).flatten = [] ↔ ¬ ∃ a ∈ l, g a) := by
  rw [List.flatten_eq_nil_iff]
  constructor
  · rintro hall ⟨a, ha, hg⟩
    exact (h a).mp (hall _ (List.mem_map_of_mem f ha)) hg
  · intro hnex le hle
    rcases List.mem_map.mp hle with ⟨a, ha, rfl⟩
    exact (h a).mpr fun hg => hnex ⟨a, ha, hg⟩

/-- Existence over the enumerated list in terms of the plain list, for
predicates reading only the entry. -/
theorem exists_mem_enum_snd {α : Type} (l : List α) (P : α → Prop) :
    (∃ ix ∈ l.enum, P ix.2) ↔ ∃ x ∈ l, P x := by
  constructor
  · rintro ⟨ix, hmem, hP⟩
    have hx : ix.2 ∈ l.enum.map Prod.snd := List.mem_map_of_mem Prod.snd hmem
    rw [List.enum_map_snd] at hx
    exact ⟨ix.2, hx, hP⟩
  · rintro ⟨x, hx, hP⟩
    rw [← List.enum_map_snd l] at hx
    rcases List.mem_map.mp hx with ⟨ix, hmem, rfl⟩
    exact ⟨ix, hmem, hP⟩

/-- The per-category skill lines carry only body-styled paragraphs. -/
theorem skills_flowables_clean (d : ResumeData) :
    ∀ u, Flowable.para u .section ∉ skills_flowables d := by
  intro u hmem
  rcases List.mem_map.mp hmem with ⟨p, hp, heq⟩
  exact absurd heq (by simp)

/-- The skill lines are empty exactly when no category qualifies. -/
theorem skills_flowables_nil (d : ResumeData) :
    skills_flowables d = [] ↔ ¬ has_qualifying d .skills := by
  unfold skills_flowables
  rw [List.map_eq_nil_iff, List.filter_eq_nil_iff]
  constructor
  · intro hall hq
    simp only [has_qualifying] at hq
    rcases hq with ⟨p, hp, h1, h2⟩
    exact hall p hp (by simp [h1, h2])
  · intro hnex p hp hcond
    simp only [Bool.and_eq_true, bne_iff_ne] at hcond
    refine hnex ?_
    simp only [has_qualifying]
    exact ⟨p, hp, hcond.1, hcond.2⟩

/-- An education entry contributes no section-styled paragraph. -/
theorem edu_entry_elems_clean (e : EduEntry) :
    ∀ u, Flowable.para u .section ∉ edu_entry_elems e := by
  intro u
  unfold edu_entry_elems
  split_ifs <;> simp

/-- An education entry contributes nothing exactly when it does not
qualify. -/
theorem edu_entry_elems_nil (e : EduEntry) :
    edu_entry_elems e = [] ↔ ¬ (e.degree ≠ "" ∧ e.institution ≠ "") := by
  unfold edu_entry_elems
  split_ifs with hg <;> simp [hg]

/-- An experience entry contributes no section-styled paragraph. -/
theorem exp_entry_elems_clean (m : Nat) (x : ExpEntry) (b : Bool) :
    ∀ u, Flowable.para u .section ∉ exp_entry_elems m x b := by
  intro u hmem
  unfold exp_entry_elems at hmem
  by_cases hg : x.job_title ≠ "" ∧ x.company ≠ ""
  · rw [if_pos hg] at hmem
    simp only [List.mem_append, List.mem_singleton] at hmem
    rcases hmem with (h | h) | h
    · exact absurd h (by simp)
    · rcases List.mem_map.mp h with ⟨v, hv, heq⟩
      exact absurd heq (by simp)
    · cases b <;> simp_all
  · rw [if_neg hg] at hmem
    exact absurd hmem (List.not_mem_nil _)

/-- An experience entry contributes nothing exactly when it does not
qualify (for either spacer flag). -/
theorem exp_entry_elems_nil (m : Nat) (x : ExpEntry) (b : Bool) :
    exp_entry_elems m x b = [] ↔ ¬ (x.job_title ≠ "" ∧ x.company ≠ "") := by
  unfold exp_entry_elems
  split_ifs with hg <;> simp [hg]

/-- A project entry contributes no section-styled paragraph. -/
theorem proj_entry_elems_clean (m : Nat) (p : ProjEntry) (b : Bool) :
    ∀ u, Flowable.para u .section ∉ proj_entry_elems m p b := by
  intro u hmem
  unfold proj_entry_elems at hmem
  by_cases hg : p.title ≠ ""
  · rw [if_pos hg] at hmem
    simp only [List.mem_append, List.mem_singleton] at hmem
    rcases hmem with (h | h) | h
    · exact absurd h (by simp)
    · rcases List.mem_map.mp h with ⟨v, hv, heq⟩
      exact absurd heq (by simp)
    · cases b <;> simp_all
  · rw [if_neg hg] at hmem
    exact absurd hmem (List.not_mem_nil _)

/-- A project entry contributes nothing exactly when it does not qualify. -/
theorem proj_entry_elems_nil (m : Nat) (p : ProjEntry) (b : Bool) :
    proj_entry_elems m p b = [] ↔ ¬ p.title ≠ "" := by
  unfold proj_entry_elems
  split_ifs with hg <;> simp [hg]

/-- A certificate entry contributes no section-styled paragraph. -/
theorem cert_entry_elems_clean (c : CertEntry) :
    ∀ u, Flowable.para u .section ∉ cert_entry_elems c := by
  intro u
  unfold cert_entry_elems
  split_ifs <;> simp

/-- A certificate entry contributes nothing exactly when it does not
qualify. -/
theorem cert_entry_elems_nil (c : CertEntry) :
    cert_entry_elems c = [] ↔ ¬ c.name ≠ "" := by
  unfold cert_entry_elems
  split_ifs with hg <;> simp [hg]

/-- An achievement entry contributes no section-styled paragraph. -/
theorem ach_entry_elems_clean (a : AchEntry) :
    ∀ u, Flowable.para u .section ∉ ach_entry_elems a := by
  intro u
  unfold ach_entry_elems
  split_ifs <;> simp

/-- An achievement entry contributes nothing exactly when it does not
qualify. -/
theorem ach_entry_elems_nil (a : AchEntry) :
    ach_entry_elems a = [] ↔ ¬ a.title ≠ "" := by
  unfold ach_entry_elems
  split_ifs with hg <;> simp [hg]

/-- Section spec for Professional Summary. -/
theorem summary_spec (lt : ℚ) (d : ResumeData) :
    SectionSpec (summary_flow lt d) (has_qualifying d .summary)
      "Professional Summary" lt := by
  unfold summary_flow
  by_cases h : d.professional_summary ≠ ""
  · rw [if_pos h]
    refine section_spec_of_add _ _ _ _ ?_ ?_
    · intro u hmem
      simp only [List.mem_singleton] at hmem
      exact absurd hmem (by simp)
    · simp [has_qualifying, h]
  · rw [if_neg h]
    refine section_spec_nil _ _ _ ?_
    simpa [has_qualifying] using h

/-- Section spec for Skills. -/
theorem skills_spec (lt : ℚ) (d : ResumeData) :
    SectionSpec (skills_flow lt d) (has_qualifying d .skills) "SKILLS" lt := by
  unfold skills_flow
  by_cases h : (d.skills.any fun p => p.2 != "") = true
  · rw [if_pos h]
    exact section_spec_of_add _ _ _ _ (skills_flowables_clean d)
      (skills_flowables_nil d)
  · rw [if_neg h]
    refine section_spec_nil _ _ _ ?_
    intro hq
    simp only [has_qualifying] at hq
    rcases hq with ⟨p, hp, h1, h2⟩
    exact h (List.any_eq_true.mpr ⟨p, hp, bne_iff_ne.mpr h1⟩)

/-- Section spec for Education. -/
theorem edu_spec (lt : ℚ) (d : ResumeData) :
    SectionSpec (edu_flow lt d) (has_qualifying d .education) "Education" lt := by
  unfold edu_flow
  refine section_spec_of_add _ _ _ _ ?_ ?_
  · exact flatten_map_clean _ _ (fun e u => edu_entry_elems_clean e u)
  · have h1 := flatten_map_nil d.education_entries edu_entry_elems
      (fun e => e.degree ≠ "" ∧ e.institution ≠ "") edu_entry_elems_nil
    simpa [has_qualifying] using h1

/-- Section spec for Experience. -/
theorem exp_spec (lt : ℚ) (m : Nat) (d : ResumeData) :
    SectionSpec (exp_flow lt m d) (has_qualifying d .experience) "EXPERIENCE" lt := by
  unfold exp_flow
  refine section_spec_of_add _ _ _ _ ?_ ?_
  · exact flatten_map_clean _ _ (fun ix u => exp_entry_elems_clean m ix.2 _ u)
  · have h1 := flatten_map_nil d.experience_entries.enum
      (fun ix => exp_entry_elems m ix.2 (decide (ix.1 + 1 < d.experience_entries.length)))
      (fun ix => ix.2.job_title ≠ "" ∧ ix.2.company ≠ "")
      (fun ix => exp_entry_elems_nil m ix.2 _)
    rw [h1, exists_mem_enum_snd d.experience_entries
      (fun x => x.job_title ≠ "" ∧ x.company ≠ "")]
    simp [has_qualifying]

/-- Section spec for Projects. -/
theorem proj_spec (lt : ℚ) (m : Nat) (d : ResumeData) :
    SectionSpec (proj_flow lt m d) (has_qualifying d .projects) "PROJECTS" lt := by
  unfold proj_flow
  refine section_spec_of_add _ _ _ _ ?_ ?_
  · exact flatten_map_clean _ _ (fun ix u => proj_entry_elems_clean m ix.2 _ u)
  · have h1 := flatten_map_nil d.project_entries.enum
      (fun ix => proj_entry_elems m ix.2 (decide (ix.1 + 1 < d.project_entries.length)))
      (fun ix => ix.2.title ≠ "")
      (fun ix => proj_entry_elems_nil m ix.2 _)
    rw [h1, exists_mem_enum_snd d.project_entries (fun x => x.title ≠ "")]
    simp [has_qualifying]

/-- Section spec for Certificates. -/
theorem cert_spec (lt : ℚ) (d : ResumeData) :
    SectionSpec (cert_flow lt d) (has_qualifying d .certificates) "Certificates" lt := by
  unfold cert_flow
  refine section_spec_of_add _ _ _ _ ?_ ?_
  · exact flatten_map_clean _ _ (fun c u => cert_entry_elems_clean c u)
  · have h1 := flatten_map_nil d.certificate_entries cert_entry_elems
      (fun c => c.name ≠ "") cert_entry_elems_nil
    simpa [has_qualifying] using h1

/-- Section spec for Achievements. -/
theorem ach_spec (lt : ℚ) (d : ResumeData) :
    SectionSpec (ach_flow lt d) (has_qualifying d .achievements) "Achievements" lt := by
  unfold ach_flow
  refine section_spec_of_add _ _ _ _ ?_ ?_
  · exact flatten_map_clean _ _ (fun a u => ach_entry_elems_clean a u)
  · have h1 := flatten_map_nil d.achievement_entries ach_entry_elems
      (fun a => a.title ≠ "") ach_entry_elems_nil
    simpa [has_qualifying] using h1

/-- Section spec for Languages Known. -/
theorem lang_spec (lt : ℚ) (d : ResumeData) :
    SectionSpec (lang_flow lt d) (has_qualifying d .languages) "Languages Known" lt := by
  unfold lang_flow
  by_cases h : d.languages ≠ ""
  · rw [if_pos h]
    refine section_spec_of_add _ _ _ _ ?_ ?_
    · intro u hmem
      simp only [List.mem_singleton] at hmem
      exact absurd hmem (by simp)
    · simp [has_qualifying, h]
  · rw [if_neg h]
    refine section_spec_nil _ _ _ ?_
    simpa [has_qualifying] using h

/-- A section's title paragraph occurs in the full flow exactly when that
section has a qualifying entry: content paragraphs never carry the
Section style, and the eight title strings are pairwise distinct. -/
theorem mem_make_flow_title (ns ts ss bs sms bls lt : ℚ) (mE mP : Nat)
    (d : ResumeData) (s : SectionId) :
    (Flowable.para (section_title s) .section ∈
        make_flow ns ts ss bs sms bls lt mE mP d ↔ has_qualifying d s) := by
  cases s <;>
    simp only [make_flow, List.mem_append, section_title,
      (summary_spec lt d).2.2, (skills_spec lt d).2.2, (edu_spec lt d).2.2,
      (exp_spec lt mE d).2.2, (proj_spec lt mP d).2.2, (cert_spec lt d).2.2,
      (ach_spec lt d).2.2, (lang_spec lt d).2.2] <;>
    simp

/-- C8: for every record and every preset, each of the eight sections
contributes nothing to the flow when it has no qualifying entry; when it
has one, its contribution opens with the section-title block immediately
followed by the full-width horizontal rule; and the section's title
block occurs in the constructed flow exactly when the section has a
qualifying entry. -/
theorem C8_section_presence (ns ts ss bs sms bls lt : ℚ) (mE mP : Nat)
    (d : ResumeData) (s : SectionId) :
    (section_flow lt mE mP d s = [] ↔ ¬ has_qualifying d s) ∧
    (has_qualifying d s → ∃ rest, section_flow lt mE mP d s =
      Flowable.para (section_title s) .section
        :: Flowable.hr "100%" lt 0 0 "CENTER" :: rest) ∧
    (Flowable.para (section_title s) .section ∈
        make_flow ns ts ss bs sms bls lt mE mP d ↔ has_qualifying d s) := by
  have hspec : SectionSpec (section_flow lt mE mP d s) (has_qualifying d s)
      (section_title s) lt := by
    cases s
    · exact summary_spec lt d
    · exact skills_spec lt d
    · exact edu_spec lt d
    · exact exp_spec lt mE d
    · exact proj_spec lt mP d
    · exact cert_spec lt d
    · exact ach_spec lt d
    · exact lang_spec lt d
  exact ⟨hspec.1, hspec.2.1, mem_make_flow_title ns ts ss bs sms bls lt mE mP d s⟩

/-- Witness for C8 at a concrete record: its qualifying Experience section
opens with the EXPERIENCE title block and the rule, at the compact
preset. -/
theorem C8_section_presence_witness :
    ∃ rest, section_flow compact_line_thick build_limits_exp build_limits_proj
        c8_record .experience =
      Flowable.para "EXPERIENCE" .section
        :: Flowable.hr "100%" compact_line_thick 0 0 "CENTER" :: rest :=
  (C8_section_presence 16 10 10 9 8 9 compact_line_thick build_limits_exp
    build_limits_proj c8_record .experience).2.1 (by decide)

/-- Taking a prefix of a bullet-paragraph list and counting bullet
paragraphs counts the prefix. -/
theorem bullet_take_count (n : Nat) (l : List String) :
    List.countP is_bullet
      ((l.map fun b => Flowable.para ("•&nbsp;&nbsp;" ++ b) PStyle.bullet).take n)
      = min n l.length := by
  rw [List.countP_eq_length.mpr ?h, List.length_take, List.length_map]
  case h =>
    intro a ha
    rcases List.mem_map.mp (List.mem_of_mem_take ha) with ⟨b, hb, rfl⟩
    rfl

/-- The bullet-paragraph count that one qualifying experience entry with
seven non-blank description lines and no pre-split bullet list
contributes under the `build_pdf_single_page` cap. -/
theorem exp_entry_bullet_count (x : ExpEntry) (not_last : Bool)
    (hq : x.job_title ≠ "" ∧ x.company ≠ "")
    (hdb : x.description_bullets = [])
    (h7 : (((splitNl x.description).map pyStrip).filter (· != "")).length = 7) :
    (exp_entry_elems build_limits_exp x not_last).countP is_bullet = 4 := by
  unfold exp_entry_elems
  rw [if_pos hq]
  have hbul : exp_bullets x = ((splitNl x.description).map pyStrip).filter (· != "") := by
    simp [exp_bullets, hdb]
  rw [hbul]
  cases not_last <;>
    simp [List.countP_append, List.countP_cons, is_bullet,
      bullet_take_count, h7, Nat.min_def, build_limits_exp]

/-- C9: under the fixed compact preset of the single-page assembly
(`max_bullets_per_exp = 4`), a qualifying experience entry whose
description has 7 non-blank lines and no pre-split bullet list yields
exactly 4 bullet blocks in its segment, and a record holding just that
entry yields exactly 4 bullet blocks in the whole compact flow. -/
theorem C9_exp_bullet_cap (x : ExpEntry) (not_last : Bool)
    (hq : x.job_title ≠ "" ∧ x.company ≠ "")
    (hdb : x.description_bullets = [])
    (h7 : (((splitNl x.description).map pyStrip).filter (· != "")).length = 7) :
    (exp_entry_elems build_limits_exp x not_last).countP is_bullet = 4 ∧
    (compact_flow { empty_record with experience_entries := [x] }).countP is_bullet = 4 := by
  refine ⟨exp_entry_bullet_count x not_last hq hdb h7, ?_⟩
  have honly : compact_flow { empty_record with experience_entries := [x] } =
      exp_flow compact_line_thick build_limits_exp
        { empty_record with experience_entries := [x] } := by
    simp [compact_flow, make_flow, summary_flow, skills_flow, edu_flow,
      proj_flow, cert_flow, ach_flow, lang_flow, add_section, empty_record]
  rw [honly]
  have hne : exp_entry_elems build_limits_exp x false ≠ [] :=
    fun h0 => ((exp_entry_elems_nil build_limits_exp x false).mp h0) hq
  have hflow : exp_flow compact_line_thick build_limits_exp
      { empty_record with experience_entries := [x] } =
      add_section "EXPERIENCE" compact_line_thick
        (exp_entry_elems build_limits_exp x false ++ []) := by
    simp [exp_flow]
  rw [hflow]
  rw [List.append_nil]
  unfold add_section
  rw [if_neg hne]
  simp [List.countP_cons, is_bullet, exp_entry_bullet_count x false hq hdb h7]

/-- Witness for C9 at a concrete seven-line entry. -/
theorem C9_exp_bullet_cap_witness :
    (exp_entry_elems build_limits_exp c9_entry false).countP is_bullet = 4 ∧
    (compact_flow { empty_record with experience_entries := [c9_entry] }).countP
      is_bullet = 4 :=
  C9_exp_bullet_cap c9_entry false (by decide) (by decide) (by decide)
